import Mathlib

/-!
# Verification of the blender-serverless render-job lifecycle

Shallow embedding of the in-scope core of the repository:

* `src/handler.py` — the worker entrypoint (`handler`), the render
  invocation wrapper (`render_blender`), and the template download helper
  (`download_template`);
* `src/render.py` — the client job driver's configuration (`CONFIG`) and
  startup credential checks;
* `src/test_endpoint.py` — the test client's startup credential checks.

Python dictionaries and values are modelled by `PyVal`; the filesystem is a
partial map from paths to byte lists; the external renderer subprocess, the
network, and the GPU probe are oracles supplied as parameters, so theorems
quantify over every possible behaviour of those collaborators.  Raised Python
exceptions are modelled by `Except PyExn`; an error payload returned to the
job system is `Payload.error`, which is distinct from a raised exception.
-/

namespace BlenderServerless

/-- Python runtime values, as far as the handler inspects them. -/
inductive PyVal where
  | vnone
  | vint (n : Int)
  | vstr (s : String)
  | vlist (xs : List PyVal)
  | vbool (b : Bool)
  deriving Repr

/-- Python truthiness (`bool(v)`): `None`, `0`, `""`, `[]`, `False` are falsy. -/
def PyVal.truthy : PyVal → Bool
  | .vnone => false
  | .vint n => n != 0
  | .vstr s => s != ""
  | .vlist xs => !xs.isEmpty
  | .vbool b => b

mutual

/-- Python `str(v)` as used for f-strings and command-line arguments. -/
def PyVal.pyStr : PyVal → String
  | .vnone => "None"
  | .vint n => toString n
  | .vstr s => s
  | .vbool b => if b then "True" else "False"
  | .vlist xs => "[" ++ String.intercalate ", " (PyVal.pyStrList xs) ++ "]"

/-- `str` of each element of a Python list. -/
def PyVal.pyStrList : List PyVal → List String
  | [] => []
  | v :: vs => PyVal.pyStr v :: PyVal.pyStrList vs

end

/-- Python exceptions that the embedded code can raise. -/
inductive PyExn where
  | typeError (msg : String)
  | indexError (msg : String)
  | keyError (k : String)
  deriving Repr, DecidableEq

/-- Python subscripting `v[i]` for a non-negative index: lists and strings
are subscriptable (`"ab"[0] = "a"`, a one-character string), with
`IndexError` past the end; `None`, ints and bools raise `TypeError`, like
the interpreter. -/
def PyVal.getItem : PyVal → Nat → Except PyExn PyVal
  | .vlist xs, i =>
      match xs.get? i with
      | some v => .ok v
      | none => .error (.indexError "list index out of range")
  | .vstr s, i =>
      match s.data.get? i with
      | some ch => .ok (.vstr (String.mk [ch]))
      | none => .error (.indexError "string index out of range")
  | .vnone, _ => .error (.typeError "NoneType object is not subscriptable")
  | .vint _, _ => .error (.typeError "int object is not subscriptable")
  | .vbool _, _ => .error (.typeError "bool object is not subscriptable")

/-- Whether a value is a Python list (the only unhashable `PyVal`). -/
def PyVal.isVlist : PyVal → Bool
  | .vlist _ => true
  | _ => false

/-- Whether `v[0]` and `v[1]` both succeed: a list or string of length at
least two. -/
def PyVal.pairIndexable : PyVal → Bool
  | .vlist (_ :: _ :: _) => true
  | .vstr s => 2 ≤ s.data.length
  | _ => false

/-! ## Filesystem model

A filesystem is a partial map from paths to file contents (byte lists).
`os.path.exists` is `isSome`, `os.path.getsize` is the length. -/

/-- Filesystem state: path → contents, `none` when the path does not exist. -/
def FS : Type := String → Option (List Nat)

/-- Create or overwrite a file (`open(p, "wb").write`, `mkstemp`). -/
def FS.write (fs : FS) (p : String) (content : List Nat) : FS :=
  fun q => if q = p then some content else fs q

/-- `os.remove(p)`. -/
def FS.remove (fs : FS) (p : String) : FS :=
  fun q => if q = p then none else fs q

/-! ## Base64 (model of Python's `base64.b64encode` / `b64decode`)

The standard alphabet with `=` padding, operating on byte lists. -/

/-- The standard base64 alphabet, sextet value → character. -/
def b64Char (n : Nat) : Char :=
  if n < 26 then Char.ofNat (65 + n)
  else if n < 52 then Char.ofNat (97 + (n - 26))
  else if n < 62 then Char.ofNat (48 + (n - 52))
  else if n = 62 then '+'
  else '/'

/-- Inverse of the base64 alphabet, character → sextet value. -/
def b64CharVal (c : Char) : Option Nat :=
  if 'A' ≤ c ∧ c ≤ 'Z' then some (c.toNat - 65)
  else if 'a' ≤ c ∧ c ≤ 'z' then some (c.toNat - 97 + 26)
  else if '0' ≤ c ∧ c ≤ '9' then some (c.toNat - 48 + 52)
  else if c = '+' then some 62
  else if c = '/' then some 63
  else none

/-- Base64 encoding of a byte list, three bytes to four characters, with
`=` padding on a final one- or two-byte group. -/
def b64encodeChunks : List Nat → List Char
  | [] => []
  | [a] =>
      [b64Char (a / 4), b64Char (a % 4 * 16), '=', '=']
  | [a, b] =>
      [b64Char (a / 4), b64Char (a % 4 * 16 + b / 16), b64Char (b % 16 * 4), '=']
  | a :: b :: c :: rest =>
      b64Char (a / 4) :: b64Char (a % 4 * 16 + b / 16) ::
        b64Char (b % 16 * 4 + c / 64) :: b64Char (c % 64) :: b64encodeChunks rest

/-- Base64 decoding of a character list: groups of four characters, `=`
padding allowed only in a final group; `none` on malformed input. -/
def b64decodeChars : List Char → Option (List Nat)
  | [] => some []
  | c1 :: c2 :: c3 :: c4 :: rest =>
      if c3 = '=' then
        if c4 = '=' ∧ rest = [] then do
          let v1 ← b64CharVal c1
          let v2 ← b64CharVal c2
          some [v1 * 4 + v2 / 16]
        else none
      else if c4 = '=' then
        if rest = [] then do
          let v1 ← b64CharVal c1
          let v2 ← b64CharVal c2
          let v3 ← b64CharVal c3
          some [v1 * 4 + v2 / 16, v2 % 16 * 16 + v3 / 4]
        else none
      else do
        let v1 ← b64CharVal c1
        let v2 ← b64CharVal c2
        let v3 ← b64CharVal c3
        let v4 ← b64CharVal c4
        let tail ← b64decodeChars rest
        some ((v1 * 4 + v2 / 16) :: (v2 % 16 * 16 + v3 / 4) :: (v3 % 4 * 64 + v4) :: tail)
  | _ => none

/-- `base64.b64encode(bytes).decode("utf-8")`. -/
def b64encodeString (bs : List Nat) : String :=
  String.mk (b64encodeChunks bs)

/-- `base64.b64decode(s)`. -/
def b64decodeString (s : String) : Option (List Nat) :=
  b64decodeChars s.data

/-! ## `src/handler.py`: data model -/

/-- The fixed template registry `TEMPLATES` (handler.py lines 43-45). -/
def TEMPLATES : List (String × String) :=
  [("ai_cpu_activation", "/workspace/templates/ai_cpu_activation_branded.blend")]

/-- Dictionary membership/lookup `template_name not in TEMPLATES` /
`TEMPLATES[template_name]` (handler.py lines 247-249).  The `in` test hashes
the key: an (unhashable) list raises `TypeError`; hashable non-string values
(`int`, `bool`) simply match no string key; a string hit returns its path. -/
def templatesLookup (v : PyVal) : Except PyExn (Option String) :=
  match v with
  | .vstr s => .ok (TEMPLATES.lookup s)
  | .vlist _ => .error (.typeError "unhashable type: 'list'")
  | _ => .ok none

/-- Python `str(list(TEMPLATES.keys()))`. -/
def templatesKeysStr : String :=
  "[" ++ String.intercalate ", " (TEMPLATES.map (fun kv => "'" ++ kv.1 ++ "'")) ++ "]"

/-- The effective render configuration dictionary: `DEFAULT_CONFIG` has all
four parameters `None` (no hidden defaults, handler.py lines 49-54), and the
handler fills them from the job input. -/
structure RenderConfig where
  duration : PyVal := .vnone
  resolution : PyVal := .vnone
  samples : PyVal := .vnone
  fps : PyVal := .vnone
  deriving Repr

/-- `DEFAULT_CONFIG` (handler.py lines 49-54): every parameter `None`. -/
def DEFAULT_CONFIG : RenderConfig := {}

/-- The job input dictionary: `none` models an absent key (`"k" in job_input`
is false), `some v` a present key with value `v`.  The nested `config` map is
modelled as its list of key/value items in iteration order. -/
structure JobInput where
  template : Option PyVal := none
  template_url : Option PyVal := none
  duration : Option PyVal := none
  resolution : Option PyVal := none
  samples : Option PyVal := none
  fps : Option PyVal := none
  config : Option (List (String × PyVal)) := none

/-- The job dictionary handed to the handler by the platform. -/
structure Job where
  id : Option PyVal := none
  input : Option JobInput := none

/-- One step of `config.update(job_input["config"])`: a recognised key
overwrites the corresponding parameter, other keys are stored but never read
by the render path. -/
def applyConfigEntry (c : RenderConfig) : String × PyVal → RenderConfig
  | ("duration", v) => { c with duration := v }
  | ("resolution", v) => { c with resolution := v }
  | ("samples", v) => { c with samples := v }
  | ("fps", v) => { c with fps := v }
  | _ => c

/-- handler.py lines 222-233: start from `DEFAULT_CONFIG`, copy each present
top-level field, then merge the nested `config` map last. -/
def buildConfig (j : JobInput) : RenderConfig :=
  let c := DEFAULT_CONFIG
  let c := match j.duration with | some v => { c with duration := v } | none => c
  let c := match j.resolution with | some v => { c with resolution := v } | none => c
  let c := match j.samples with | some v => { c with samples := v } | none => c
  let c := match j.fps with | some v => { c with fps := v } | none => c
  match j.config with
  | some entries => entries.foldl applyConfigEntry c
  | none => c

/-! ## `src/handler.py`: `download_template` -/

/-- What the network returns for a URL: the oracle for `urllib`. -/
inductive NetResult where
  | ok (content : List Nat)
  | httpError (code : Nat) (reason : String)
  | urlError (reason : String)
  | raised (msg : String)

/-- Network oracle. -/
def Net : Type := String → NetResult

/-- handler.py lines 57-93: create the temp file (`mkstemp`), fetch the URL,
write the body on success; on any failure remove the temp file and raise a
wrapped `Exception` (modelled as `.error message`). -/
def download_template (net : Net) (temp_path : String) (url : String) (fs : FS) :
    FS × Except String String :=
  let fs1 := fs.write temp_path []
  match net url with
  | .ok content => (fs1.write temp_path content, .ok temp_path)
  | .httpError code reason =>
      (fs1.remove temp_path,
       .error ("HTTP error downloading template: " ++ toString code ++ " " ++ reason))
  | .urlError reason =>
      (fs1.remove temp_path, .error ("URL error downloading template: " ++ reason))
  | .raised msg =>
      ((if (fs1 temp_path).isSome then fs1.remove temp_path else fs1),
       .error ("Failed to download template: " ++ msg))

/-! ## `src/handler.py`: `render_blender` -/

/-- `str(e)` of a raised exception. -/
def PyExn.message : PyExn → String
  | .typeError msg => msg
  | .indexError msg => msg
  | .keyError k => "'" ++ k ++ "'"

/-- What `subprocess.run` returned for a completed child. -/
structure CompletedProc where
  returncode : Int
  stdout : String
  stderr : String

/-- Outcome of one `subprocess.run` call: completion (with the filesystem as
the child left it), `TimeoutExpired`, or some other raised exception. -/
inductive RunOutcome where
  | completed (proc : CompletedProc) (fsAfter : FS)
  | timedOut
  | raised (e : PyExn)

/-- Subprocess oracle: command line, timeout seconds, pre-state. -/
def BlenderRun : Type := List String → Nat → FS → RunOutcome

/-- The hard subprocess timeout passed to `subprocess.run`
(handler.py line 172: `timeout=3600  # 1 hour max`). -/
def RENDER_SUBPROCESS_TIMEOUT : Nat := 3600

/-- Python slice `s[-n:]`. -/
def strTail (n : Nat) (s : String) : String :=
  String.mk (s.data.drop (s.data.length - n))

/-- The renderer command line (handler.py lines 144-161): `xvfb-run` wraps
`blender --background <template> --python /workspace/render_blend.py` with
output/width/height/samples/fps flags, and `--duration` only when the
duration is truthy. -/
def blenderCmd (template_path output_path : String) (config : RenderConfig)
    (r0 r1 : PyVal) : List String :=
  let cmd0 := ["xvfb-run", "-a", "--server-args=-screen 0 1920x1080x24",
    "blender", "--background", template_path,
    "--python", "/workspace/render_blend.py", "--",
    "--output", output_path,
    "--width", r0.pyStr, "--height", r1.pyStr,
    "--samples", config.samples.pyStr, "--fps", config.fps.pyStr]
  if config.duration.truthy then cmd0 ++ ["--duration", config.duration.pyStr]
  else cmd0

/-- The dictionary `render_blender` returns: a success dict always carries
`render_time_seconds`, `file_size_bytes` and `stdout`; a failure dict always
carries `error`, and `stdout`/`render_time_seconds` only on the
completed-but-failed path. -/
inductive RenderResult where
  | ok (render_time_seconds : Nat) (file_size_bytes : Nat) (stdout : Option String)
  | fail (error : String) (stdout : Option String) (render_time_seconds : Option Nat)
  deriving Repr

/-- `render_result["success"]`. -/
def RenderResult.isSuccess : RenderResult → Bool
  | .ok _ _ _ => true
  | .fail _ _ _ => false

/-- Result of a `render_blender` call: the returned dict (or the exception it
let escape), the filesystem afterwards, and the commands it spawned. -/
structure RBOut where
  result : Except PyExn RenderResult
  fs : FS
  spawned : List (List String)

/-- handler.py lines 114-206.  Checks the template file and the three
required parameters before building the command; the command construction
(`str(resolution[0])`, `str(resolution[1])`, lines 144-158) happens OUTSIDE
the `try`, so a subscript failure there escapes; the `try` around
`subprocess.run` converts timeout and any other exception into a failure
dict; success requires exit code 0 and an existing output file. -/
def render_blender (run : BlenderRun) (elapsed : Nat) (fs : FS)
    (template_path output_path : String) (config : RenderConfig) : RBOut :=
  if (fs template_path).isNone then
    ⟨.ok (.fail ("Template not found: " ++ template_path) none none), fs, []⟩
  else
    let resolution := config.resolution
    let samples := config.samples
    let fps := config.fps
    if !resolution.truthy then
      ⟨.ok (.fail "Missing required parameter: resolution" none none), fs, []⟩
    else if !samples.truthy then
      ⟨.ok (.fail "Missing required parameter: samples" none none), fs, []⟩
    else if !fps.truthy then
      ⟨.ok (.fail "Missing required parameter: fps" none none), fs, []⟩
    else
      match resolution.getItem 0, resolution.getItem 1 with
      | .error e, _ => ⟨.error e, fs, []⟩
      | .ok _, .error e => ⟨.error e, fs, []⟩
      | .ok r0, .ok r1 =>
        let cmd := blenderCmd template_path output_path config r0 r1
        match run cmd RENDER_SUBPROCESS_TIMEOUT fs with
        | .timedOut =>
            ⟨.ok (.fail "Render timed out after 1 hour" none none), fs, [cmd]⟩
        | .raised e => ⟨.ok (.fail e.message none none), fs, [cmd]⟩
        | .completed proc fsAfter =>
            let stdoutField :=
              if proc.stdout != "" then some (strTail 2000 proc.stdout) else none
            if proc.returncode == 0 && (fsAfter output_path).isSome then
              ⟨.ok (.ok elapsed ((fsAfter output_path).getD []).length stdoutField),
               fsAfter, [cmd]⟩
            else
              ⟨.ok (.fail
                  (if proc.stderr != "" then proc.stderr
                   else "Render failed - no output file")
                  stdoutField (some elapsed)),
               fsAfter, [cmd]⟩

/-! ## `src/handler.py`: `handler` -/

/-- Externally visible actions of one invocation. -/
inductive Effect where
  | downloadAttempt (url : String)
  | spawn (cmd : List String)

/-- The success payload dictionary (handler.py lines 282-291). -/
structure SuccessPayload where
  video_base64 : String
  template : PyVal
  template_url : PyVal
  duration : PyVal
  resolution : PyVal
  render_time_seconds : Nat
  file_size_bytes : Nat
  gpu_used : Bool

/-- What the handler hands back to the job system. -/
inductive Payload where
  | error (msg : String)
  | ok (p : SuccessPayload)

/-- Environment of one handler invocation: network and subprocess oracles,
the fresh paths `tempfile` hands out, the GPU probe result, and the render
wall-clock reading. -/
structure HandlerEnv where
  net : Net
  run : BlenderRun
  tempBlendPath : String
  tempMp4Path : String
  gpu : Bool
  elapsed : Nat

/-- Result of one handler invocation: the returned payload (or the exception
that escaped), the final filesystem, and the effects performed. -/
structure HandlerOutcome where
  result : Except PyExn Payload
  fs : FS
  effects : List Effect

/-- The `finally` block (handler.py lines 293-300): remove the temp output
file if it exists, then the downloaded template if one was fetched and still
exists. -/
def cleanupFiles (output_path : String) (downloaded : Option String) (fs : FS) : FS :=
  let fs1 := if (fs output_path).isSome then fs.remove output_path else fs
  match downloaded with
  | some d => if (fs1 d).isSome then fs1.remove d else fs1
  | none => fs1

/-- handler.py lines 264-300: create the temp output file, run
`render_blender` inside `try ... finally`, shape the payload, and clean up on
every exit path (the `finally` has no `except`, so an exception from
`render_blender` still escapes after cleanup). -/
def handlerRender (env : HandlerEnv) (fs : FS) (effects : List Effect)
    (template_name template_url : PyVal) (template_path : String)
    (downloaded : Option String) (config : RenderConfig) : HandlerOutcome :=
  let output_path := env.tempMp4Path
  let fs0 := fs.write output_path []
  let rb := render_blender env.run env.elapsed fs0 template_path output_path config
  let effects := effects ++ rb.spawned.map Effect.spawn
  match rb.result with
  | .error e => ⟨.error e, cleanupFiles output_path downloaded rb.fs, effects⟩
  | .ok (.fail err _ _) =>
      ⟨.ok (.error err), cleanupFiles output_path downloaded rb.fs, effects⟩
  | .ok (.ok rt fsz _) =>
      match rb.fs output_path with
      | none =>
          ⟨.error (.keyError output_path),
           cleanupFiles output_path downloaded rb.fs, effects⟩
      | some videoBytes =>
          ⟨.ok (.ok {
              video_base64 := b64encodeString videoBytes,
              template := if template_name.truthy then template_name
                          else .vstr "from_url",
              template_url := template_url,
              duration := config.duration,
              resolution := config.resolution,
              render_time_seconds := rt,
              file_size_bytes := fsz,
              gpu_used := env.gpu }),
           cleanupFiles output_path downloaded rb.fs, effects⟩

/-- handler.py lines 209-300.  `job['id']` is read first (KeyError escapes if
absent); the template source is resolved URL-first (lines 236-255); then the
render/encode/cleanup phase runs. -/
def handler (env : HandlerEnv) (fs : FS) (job : Job) : HandlerOutcome :=
  match job.id with
  | none => ⟨.error (.keyError "id"), fs, []⟩
  | some _ =>
    let job_input := job.input.getD {}
    let template_name := job_input.template.getD .vnone
    let template_url := job_input.template_url.getD .vnone
    let config := buildConfig job_input
    if template_url.truthy then
      let url := template_url.pyStr
      let dl := download_template env.net env.tempBlendPath url fs
      match dl.2 with
      | .error e =>
          ⟨.ok (.error ("Failed to download template: " ++ e)), dl.1,
           [.downloadAttempt url]⟩
      | .ok path =>
          handlerRender env dl.1 [.downloadAttempt url] template_name template_url
            path (some path) config
    else if template_name.truthy then
      match templatesLookup template_name with
      | .error e => ⟨.error e, fs, []⟩
      | .ok none =>
          ⟨.ok (.error ("Unknown template: " ++ template_name.pyStr ++
              ". Available: " ++ templatesKeysStr)), fs, []⟩
      | .ok (some path) =>
          handlerRender env fs [] template_name template_url path none config
    else
      match TEMPLATES.lookup "ai_cpu_activation" with
      | some path =>
          handlerRender env fs [] (.vstr "ai_cpu_activation") template_url
            path none config
      | none => ⟨.error (.keyError "ai_cpu_activation"), fs, []⟩

/-! ## `src/render.py` and `src/test_endpoint.py`: client drivers -/

/-- `CONFIG` in `src/render.py` lines 19-33: the single source of truth for
render parameters and polling settings. -/
structure RenderClientConfig where
  template : PyVal
  template_url : PyVal
  duration : PyVal
  resolution : PyVal
  samples : PyVal
  fps : PyVal
  poll_interval : Nat
  timeout : Nat

/-- `CONFIG` (render.py lines 19-33): 35-minute polling ceiling. -/
def CONFIG : RenderClientConfig := {
  template := .vstr "ai_cpu_activation",
  template_url := .vnone,
  duration := .vnone,
  resolution := .vlist [.vint 1920, .vint 1080],
  samples := .vint 128,
  fps := .vint 24,
  poll_interval := 10,
  timeout := 2100 }

/-- The environment variables the client drivers read (`none` = unset). -/
structure ClientEnvVars where
  RUNPOD_API_KEY : Option String := none
  RUNPOD_BLENDER_ENDPOINT_ID : Option String := none

/-- Python `os.environ.get(name) or fallback`: unset or empty selects the
fallback. -/
def envOr (v : Option String) (fallback : String) : String :=
  match v with
  | some s => if s != "" then s else fallback
  | none => fallback

/-- What module-level startup does before any HTTP request: exit with a
printed error, or proceed with the resolved credential and endpoint id (from
which `BASE_URL` and the request headers are then built). -/
inductive StartupResult where
  | exitError (msg : String)
  | proceed (apiKey endpointId : String)

/-- Startup of `src/render.py` (lines 37-48): the endpoint id falls back to
the hardcoded `"9ypr4dw7bjj7xi"` when the variable is unset or empty; only a
missing/empty API key exits. -/
def renderPyStartup (env : ClientEnvVars) : StartupResult :=
  let endpointId := envOr env.RUNPOD_BLENDER_ENDPOINT_ID "9ypr4dw7bjj7xi"
  match env.RUNPOD_API_KEY with
  | none => .exitError "ERROR: Set RUNPOD_API_KEY in environment or .env"
  | some k =>
      if k = "" then .exitError "ERROR: Set RUNPOD_API_KEY in environment or .env"
      else .proceed k endpointId

/-- Startup of `src/test_endpoint.py` (lines 14-23): both a missing/empty API
key and a missing/empty endpoint id exit before any request. -/
def testEndpointStartup (env : ClientEnvVars) : StartupResult :=
  match env.RUNPOD_API_KEY with
  | none => .exitError "ERROR: Set RUNPOD_API_KEY in environment or .env"
  | some k =>
    if k = "" then .exitError "ERROR: Set RUNPOD_API_KEY in environment or .env"
    else
      match env.RUNPOD_BLENDER_ENDPOINT_ID with
      | none =>
          .exitError "ERROR: Set RUNPOD_BLENDER_ENDPOINT_ID in environment or .env"
      | some eid =>
        if eid = "" then
          .exitError "ERROR: Set RUNPOD_BLENDER_ENDPOINT_ID in environment or .env"
        else .proceed k eid

/-- Truthiness of an environment-variable read (`not VAR`): unset or empty. -/
def envTruthy : Option String → Bool
  | some s => s != ""
  | none => false

/-- The URL downloads among an invocation's effects. -/
def downloadsOf (effects : List Effect) : List String :=
  effects.filterMap fun e =>
    match e with
    | .downloadAttempt u => some u
    | .spawn _ => none

/-! Concrete fixtures used to instantiate theorems at specific inputs. -/

/-- A filesystem holding only the registry's baked-in template (empty). -/
def templateOnlyFS : FS := fun p =>
  if p = "/workspace/templates/ai_cpu_activation_branded.blend" then some []
  else none

/-- A network where every URL answers 404. -/
def net404 : Net := fun _ => .httpError 404 "Not Found"

/-- A subprocess oracle whose child never terminates in time. -/
def runNever : BlenderRun := fun _ _ _ => .timedOut

/-! ## Helper lemmas -/

/-- The base64 alphabet functions are mutually inverse on sextet values. -/
theorem b64CharVal_b64Char : ∀ n : Nat, n < 64 → b64CharVal (b64Char n) = some n := by
  decide

/-- No sextet encodes to the padding character. -/
theorem b64Char_ne_pad : ∀ n : Nat, n < 64 → b64Char n ≠ '=' := by
  decide

/-- Base64 decoding inverts base64 encoding on any byte list. -/
theorem b64_roundtrip : ∀ bs : List Nat, (∀ b ∈ bs, b < 256) →
    b64decodeChars (b64encodeChunks bs) = some bs
  | [], _ => rfl
  | [a], h => by
      have ha : a < 256 := h a (by simp)
      have h1 : a / 4 < 64 := by omega
      have h2 : a % 4 * 16 < 64 := by omega
      simp [b64encodeChunks, b64decodeChars, b64CharVal_b64Char _ h1,
        b64CharVal_b64Char _ h2]
      omega
  | [a, b], h => by
      have ha : a < 256 := h a (by simp)
      have hb : b < 256 := h b (by simp)
      have h1 : a / 4 < 64 := by omega
      have h2 : a % 4 * 16 + b / 16 < 64 := by omega
      have h3 : b % 16 * 4 < 64 := by omega
      have hne : ¬ b64Char (b % 16 * 4) = '=' := b64Char_ne_pad _ h3
      simp [b64encodeChunks, b64decodeChars, hne, b64CharVal_b64Char _ h1,
        b64CharVal_b64Char _ h2, b64CharVal_b64Char _ h3]
      omega
  | a :: b :: c :: rest, h => by
      have ha : a < 256 := h a (by simp)
      have hb : b < 256 := h b (by simp)
      have hc : c < 256 := h c (by simp)
      have h1 : a / 4 < 64 := by omega
      have h2 : a % 4 * 16 + b / 16 < 64 := by omega
      have h3 : b % 16 * 4 + c / 64 < 64 := by omega
      have h4 : c % 64 < 64 := by omega
      have hne3 : ¬ b64Char (b % 16 * 4 + c / 64) = '=' := b64Char_ne_pad _ h3
      have hne4 : ¬ b64Char (c % 64) = '=' := b64Char_ne_pad _ h4
      have ih := b64_roundtrip rest (fun x hx => h x (by simp [hx]))
      simp [b64encodeChunks, b64decodeChars, hne3, hne4,
        b64CharVal_b64Char _ h1, b64CharVal_b64Char _ h2,
        b64CharVal_b64Char _ h3, b64CharVal_b64Char _ h4, ih]
      omega

/-- Only a list-valued template name makes the registry membership test
raise. -/
theorem templatesLookup_error (v : PyVal) (e : PyExn)
    (h : templatesLookup v = .error e) : v.isVlist = true := by
  cases v <;> simp [templatesLookup, PyVal.isVlist] at h ⊢

/-- A pair-indexable value yields values at indices 0 and 1. -/
theorem pairIndexable_getItem (v : PyVal) (h : v.pairIndexable = true) :
    ∃ a b, v.getItem 0 = .ok a ∧ v.getItem 1 = .ok b := by
  cases v with
  | vlist xs =>
      match xs, h with
      | a :: b :: rest, _ => exact ⟨a, b, rfl, rfl⟩
  | vstr s =>
      simp only [PyVal.pairIndexable] at h
      cases hsd : s.data with
      | nil => rw [hsd] at h; simp at h
      | cons c0 t =>
        cases t with
        | nil => rw [hsd] at h; simp at h
        | cons c1 t2 =>
            exact ⟨.vstr (String.mk [c0]), .vstr (String.mk [c1]),
              by simp [PyVal.getItem, hsd], by simp [PyVal.getItem, hsd]⟩
  | vnone => simp [PyVal.pairIndexable] at h
  | vint n => simp [PyVal.pairIndexable] at h
  | vbool b => simp [PyVal.pairIndexable] at h

/-- The `finally` block always leaves the temp output path deleted. -/
theorem cleanupFiles_output_none (op : String) (d : Option String) (f : FS) :
    cleanupFiles op d f op = none := by
  have base : (if (f op).isSome then FS.remove f op else f) op = none := by
    by_cases h : (f op).isSome
    · simp [h, FS.remove]
    · simp only [h, if_false]
      exact Option.not_isSome_iff_eq_none.mp h
  simp only [cleanupFiles]
  cases d with
  | none => exact base
  | some dd =>
      by_cases h2 : ((if (f op).isSome then FS.remove f op else f) dd).isSome
      · simp only [h2, if_true, FS.remove]
        split
        · rfl
        · exact base
      · simp only [h2, if_false]
        exact base

/-- The `finally` block always leaves the downloaded-template path deleted. -/
theorem cleanupFiles_downloaded_none (op dd : String) (f : FS) :
    cleanupFiles op (some dd) f dd = none := by
  simp only [cleanupFiles]
  by_cases h2 : ((if (f op).isSome then FS.remove f op else f) dd).isSome
  · simp [h2, FS.remove]
  · simp only [h2, if_false]
    exact Option.not_isSome_iff_eq_none.mp h2

/-- `download_template` touches no path other than its temp path. -/
theorem download_template_other (net : Net) (temp_path url : String) (fs : FS)
    (p : String) (hp : p ≠ temp_path) :
    (download_template net temp_path url fs).1 p = fs p := by
  cases hnet : net url <;>
    simp [download_template, hnet, FS.write, FS.remove, hp]

/-- When `download_template` raises, its temp file has been removed. -/
theorem download_template_fail_at_temp (net : Net) (temp_path url : String)
    (fs : FS) (e : String)
    (h : (download_template net temp_path url fs).2 = .error e) :
    (download_template net temp_path url fs).1 temp_path = none := by
  cases hnet : net url with
  | ok content => simp [download_template, hnet] at h
  | httpError code reason =>
      simp [download_template, hnet, FS.write, FS.remove]
  | urlError reason =>
      simp [download_template, hnet, FS.write, FS.remove]
  | raised msg =>
      simp [download_template, hnet, FS.write, FS.remove]

/-- A successful `download_template` returns exactly its temp path. -/
theorem download_template_ok_path (net : Net) (temp_path url : String)
    (fs : FS) (p : String)
    (h : (download_template net temp_path url fs).2 = .ok p) : p = temp_path := by
  cases hnet : net url with
  | ok content =>
      simp [download_template, hnet] at h
      exact h.symm
  | httpError code reason => simp [download_template, hnet] at h
  | urlError reason => simp [download_template, hnet] at h
  | raised msg => simp [download_template, hnet] at h

/-- Every exit path of the render/encode phase runs the cleanup: the temp
output path is gone afterwards, and so is the downloaded template if one was
passed in. -/
theorem handlerRender_fs (env : HandlerEnv) (fs : FS) (effects : List Effect)
    (tn tu : PyVal) (tp : String) (d : Option String) (c : RenderConfig) :
    (handlerRender env fs effects tn tu tp d c).fs env.tempMp4Path = none ∧
    (∀ dd, d = some dd →
      (handlerRender env fs effects tn tu tp d c).fs dd = none) := by
  constructor
  · simp only [handlerRender]
    split
    · exact cleanupFiles_output_none _ _ _
    · exact cleanupFiles_output_none _ _ _
    · split
      · exact cleanupFiles_output_none _ _ _
      · exact cleanupFiles_output_none _ _ _
  · intro dd hdd
    subst hdd
    simp only [handlerRender]
    split
    · exact cleanupFiles_downloaded_none _ _ _
    · exact cleanupFiles_downloaded_none _ _ _
    · split
      · exact cleanupFiles_downloaded_none _ _ _
      · exact cleanupFiles_downloaded_none _ _ _

/-- The render/encode phase only appends subprocess-spawn effects. -/
theorem handlerRender_effects (env : HandlerEnv) (fs : FS)
    (effects : List Effect) (tn tu : PyVal) (tp : String) (d : Option String)
    (c : RenderConfig) :
    ∃ spawns : List (List String),
      (handlerRender env fs effects tn tu tp d c).effects =
        effects ++ spawns.map Effect.spawn := by
  refine ⟨(render_blender env.run env.elapsed (fs.write env.tempMp4Path []) tp
    env.tempMp4Path c).spawned, ?_⟩
  simp only [handlerRender]
  split
  · rfl
  · rfl
  · split
    · rfl
    · rfl

/-- Subprocess spawns contribute no downloads. -/
theorem downloadsOf_spawns (es : List Effect) (cmds : List (List String)) :
    downloadsOf (es ++ cmds.map Effect.spawn) = downloadsOf es := by
  induction cmds with
  | nil => simp
  | cons cmd rest ih =>
      simp only [downloadsOf, List.filterMap_append, List.filterMap_map]
        at ih ⊢
      rw [show (List.filterMap
          ((fun e => match e with
            | Effect.downloadAttempt u => some u
            | Effect.spawn _ => none) ∘ Effect.spawn) (cmd :: rest)) = [] by
        simp [Function.comp]]
      rw [show (List.filterMap
          ((fun e => match e with
            | Effect.downloadAttempt u => some u
            | Effect.spawn _ => none) ∘ Effect.spawn) rest) = [] by
        simp [Function.comp]] at ih
      exact ih

/-- With a truthy registry name and no URL, the handler reduces to the
render/encode phase on the looked-up registry path. -/
theorem handler_named_template (env : HandlerEnv) (fs : FS) (idv : PyVal)
    (ji : JobInput) (path : String)
    (hurl : (ji.template_url.getD .vnone).truthy = false)
    (hname : (ji.template.getD .vnone).truthy = true)
    (hlook : templatesLookup (ji.template.getD .vnone) = .ok (some path)) :
    handler env fs ⟨some idv, some ji⟩ =
      handlerRender env fs [] (ji.template.getD .vnone)
        (ji.template_url.getD .vnone) path none (buildConfig ji) := by
  unfold handler
  simp only [Option.getD_some]
  rw [if_neg (by simp [hurl]), if_pos hname]
  simp only [hlook]

/-- A render failure dict becomes an `{error}` payload. -/
theorem handlerRender_fail (env : HandlerEnv) (fs : FS) (effects : List Effect)
    (tn tu : PyVal) (tp : String) (d : Option String) (c : RenderConfig)
    (err : String) (so : Option String) (rt : Option Nat)
    (hrb : (render_blender env.run env.elapsed (fs.write env.tempMp4Path []) tp
      env.tempMp4Path c).result = .ok (.fail err so rt)) :
    (handlerRender env fs effects tn tu tp d c).result = .ok (.error err) := by
  unfold handlerRender
  simp only [hrb]

/-- A render success dict becomes the base64 success payload built from the
bytes found at the temp output path. -/
theorem handlerRender_success (env : HandlerEnv) (fs : FS)
    (effects : List Effect) (tn tu : PyVal) (tp : String) (d : Option String)
    (c : RenderConfig) (rt fsz : Nat) (so : Option String) (bytes : List Nat)
    (hrb : (render_blender env.run env.elapsed (fs.write env.tempMp4Path []) tp
      env.tempMp4Path c).result = .ok (.ok rt fsz so))
    (hbytes : (render_blender env.run env.elapsed (fs.write env.tempMp4Path [])
      tp env.tempMp4Path c).fs env.tempMp4Path = some bytes) :
    (handlerRender env fs effects tn tu tp d c).result = .ok (.ok {
      video_base64 := b64encodeString bytes,
      template := if tn.truthy then tn else .vstr "from_url",
      template_url := tu,
      duration := c.duration,
      resolution := c.resolution,
      render_time_seconds := rt,
      file_size_bytes := fsz,
      gpu_used := env.gpu }) := by
  unfold handlerRender
  simp only [hrb, hbytes]

/-- When the merged `resolution` is falsy or subscriptable at 0 and 1 (a
list or string of length ≥ 2), `render_blender` returns a dict (raises
nothing), and a success dict implies the output file exists in its final
filesystem. -/
theorem render_blender_no_raise (run : BlenderRun) (elapsed : Nat) (fs : FS)
    (tp op : String) (c : RenderConfig)
    (hres : c.resolution.truthy = false ∨ c.resolution.pairIndexable = true) :
    (∃ r, (render_blender run elapsed fs tp op c).result = .ok r) ∧
    (∀ rt fsz so,
      (render_blender run elapsed fs tp op c).result = .ok (.ok rt fsz so) →
      ∃ bytes, (render_blender run elapsed fs tp op c).fs op = some bytes) := by
  constructor
  · cases hr : (render_blender run elapsed fs tp op c).result with
    | ok r => exact ⟨r, rfl⟩
    | error e =>
        exfalso
        by_cases htp : (fs tp).isNone = true
        · simp [render_blender, htp] at hr
        · by_cases htr : c.resolution.truthy = true
          swap
          · simp [render_blender, htp, htr] at hr
          · obtain ⟨w, hgt, hg0, hg1⟩ :=
              pairIndexable_getItem _ (hres.resolve_left (by simp [htr]))
            by_cases hsam : c.samples.truthy = true
            swap
            · simp [render_blender, htp, htr, hsam] at hr
            · by_cases hfps : c.fps.truthy = true
              swap
              · simp [render_blender, htp, htr, hsam, hfps] at hr
              · cases hrun : run (blenderCmd tp op c w hgt)
                    RENDER_SUBPROCESS_TIMEOUT fs with
                | timedOut =>
                    simp [render_blender, htp, htr, hsam, hfps, hg0, hg1,
                      hrun] at hr
                | raised e2 =>
                    simp [render_blender, htp, htr, hsam, hfps, hg0, hg1,
                      hrun] at hr
                | completed proc fsA =>
                    by_cases hc :
                        (proc.returncode == 0 && (fsA op).isSome) = true
                    · simp [render_blender, htp, htr, hsam, hfps, hg0, hg1,
                        hrun, hc] at hr
                    · simp [render_blender, htp, htr, hsam, hfps, hg0, hg1,
                        hrun, hc] at hr
  · intro rt fsz so h
    by_cases htp : (fs tp).isNone = true
    · simp [render_blender, htp] at h
    · by_cases htr : c.resolution.truthy = true
      swap
      · simp [render_blender, htp, htr] at h
      · obtain ⟨w, hgt, hg0, hg1⟩ :=
          pairIndexable_getItem _ (hres.resolve_left (by simp [htr]))
        by_cases hsam : c.samples.truthy = true
        swap
        · simp [render_blender, htp, htr, hsam] at h
        · by_cases hfps : c.fps.truthy = true
          swap
          · simp [render_blender, htp, htr, hsam, hfps] at h
          · cases hrun : run (blenderCmd tp op c w hgt)
                RENDER_SUBPROCESS_TIMEOUT fs with
            | timedOut =>
                simp [render_blender, htp, htr, hsam, hfps, hg0, hg1,
                  hrun] at h
            | raised e2 =>
                simp [render_blender, htp, htr, hsam, hfps, hg0, hg1,
                  hrun] at h
            | completed proc fsA =>
                by_cases hc : (proc.returncode == 0 && (fsA op).isSome) = true
                · have hs : (fsA op).isSome = true :=
                    ((Bool.and_eq_true _ _).mp hc).2
                  have h0 : proc.returncode = 0 := by
                    simpa using ((Bool.and_eq_true _ _).mp hc).1
                  obtain ⟨bytes, hb⟩ := Option.isSome_iff_exists.mp hs
                  refine ⟨bytes, ?_⟩
                  simp [render_blender, htp, htr, hsam, hfps, hg0, hg1,
                    hrun, hc, hb, h0]
                · simp [render_blender, htp, htr, hsam, hfps, hg0, hg1,
                    hrun, hc] at h

/-- The render/encode phase always returns a payload when the resolution is
falsy or indexable. -/
theorem handlerRender_no_raise (env : HandlerEnv) (fs : FS)
    (effects : List Effect) (tn tu : PyVal) (tp : String) (d : Option String)
    (c : RenderConfig)
    (hres : c.resolution.truthy = false ∨ c.resolution.pairIndexable = true) :
    ∃ pay, (handlerRender env fs effects tn tu tp d c).result = .ok pay := by
  obtain ⟨⟨r, hr⟩, hok⟩ := render_blender_no_raise env.run env.elapsed
    (fs.write env.tempMp4Path []) tp env.tempMp4Path c hres
  cases r with
  | fail e so rt => exact ⟨_, handlerRender_fail env fs effects tn tu tp d c
      e so rt hr⟩
  | ok rt fsz so =>
      obtain ⟨bytes, hb⟩ := hok rt fsz so hr
      exact ⟨_, handlerRender_success env fs effects tn tu tp d c rt fsz so
        bytes hr hb⟩

/-! ## Claim C3 -/

/-- C3: for every environment, pre-state and job — success payload, error
payload, or an exception escaping mid-render — when the invocation ends the
temp output file is gone, and whenever a template download was attempted the
temp download path is gone too; the hypothesis says only that the `tempfile`
paths are fresh (no file exists there beforehand). -/
theorem claim3_cleanup (env : HandlerEnv) (fs : FS) (job : Job)
    (hout : fs env.tempMp4Path = none) :
    (handler env fs job).fs env.tempMp4Path = none ∧
    (∀ u, Effect.downloadAttempt u ∈ (handler env fs job).effects →
      (handler env fs job).fs env.tempBlendPath = none) := by
  unfold handler
  cases job.id with
  | none => exact ⟨hout, fun u hu => absurd hu (by simp)⟩
  | some _ =>
    by_cases hurl : ((job.input.getD {}).template_url.getD .vnone).truthy = true
    · rw [if_pos hurl]
      cases hdl : (download_template env.net env.tempBlendPath
          ((job.input.getD {}).template_url.getD .vnone).pyStr fs).2 with
      | error e =>
          simp only [hdl]
          constructor
          · by_cases hpe : env.tempMp4Path = env.tempBlendPath
            · rw [hpe]
              exact download_template_fail_at_temp _ _ _ _ _ hdl
            · rw [download_template_other _ _ _ _ _ hpe]
              exact hout
          · intro u _
            exact download_template_fail_at_temp _ _ _ _ _ hdl
      | ok path =>
          have hpath := download_template_ok_path _ _ _ _ _ hdl
          subst hpath
          simp only [hdl]
          exact ⟨(handlerRender_fs _ _ _ _ _ _ _ _).1,
            fun u _ => (handlerRender_fs _ _ _ _ _ _ _ _).2 _ rfl⟩
    · rw [if_neg hurl]
      by_cases hname : ((job.input.getD {}).template.getD .vnone).truthy = true
      · rw [if_pos hname]
        cases hlook : templatesLookup ((job.input.getD {}).template.getD .vnone) with
        | error e =>
            simp only [hlook]
            exact ⟨hout, fun u hu => absurd hu (by simp)⟩
        | ok olook =>
          cases olook with
          | none =>
            simp only [hlook]
            exact ⟨hout, fun u hu => absurd hu (by simp)⟩
          | some path =>
            simp only [hlook]
            refine ⟨(handlerRender_fs _ _ _ _ _ _ _ _).1, fun u hu => ?_⟩
            obtain ⟨spawns, hsp⟩ := handlerRender_effects env fs []
              ((job.input.getD {}).template.getD .vnone)
              ((job.input.getD {}).template_url.getD .vnone) path none
              (buildConfig (job.input.getD {}))
            rw [hsp] at hu
            simp at hu
      · rw [if_neg hname]
        have hdef : TEMPLATES.lookup "ai_cpu_activation" =
            some "/workspace/templates/ai_cpu_activation_branded.blend" := rfl
        simp only [hdef]
        refine ⟨(handlerRender_fs _ _ _ _ _ _ _ _).1, fun u hu => ?_⟩
        obtain ⟨spawns, hsp⟩ := handlerRender_effects env fs []
          (.vstr "ai_cpu_activation")
          ((job.input.getD {}).template_url.getD .vnone)
          "/workspace/templates/ai_cpu_activation_branded.blend" none
          (buildConfig (job.input.getD {}))
        rw [hsp] at hu
        simp at hu

/-- C3 witness: a concrete invocation that downloads a template and renders
successfully, starting from an empty filesystem, ends with both temp paths
absent. -/
theorem claim3_cleanup_witness :
    (handler
      ⟨fun _ => .ok [1, 2], fun _ _ f => .completed ⟨0, "", ""⟩ f,
        "/tmp/dl.blend", "/tmp/out.mp4", true, 3⟩
      (fun _ => none)
      ⟨some (.vstr "job-1"),
        some { template_url := some (.vstr "http://host/t.blend") }⟩).fs
        "/tmp/out.mp4" = none ∧
    ((handler
      ⟨fun _ => .ok [1, 2], fun _ _ f => .completed ⟨0, "", ""⟩ f,
        "/tmp/dl.blend", "/tmp/out.mp4", true, 3⟩
      (fun _ => none)
      ⟨some (.vstr "job-1"),
        some { template_url := some (.vstr "http://host/t.blend") }⟩).fs
        "/tmp/dl.blend" = none) := by
  have h := claim3_cleanup
    ⟨fun _ => .ok [1, 2], fun _ _ f => .completed ⟨0, "", ""⟩ f,
      "/tmp/dl.blend", "/tmp/out.mp4", true, 3⟩
    (fun _ => none)
    ⟨some (.vstr "job-1"),
      some { template_url := some (.vstr "http://host/t.blend") }⟩
    rfl
  refine ⟨h.1, h.2 "http://host/t.blend" ?_⟩
  have heff : (handler
      ⟨fun _ => .ok [1, 2], fun _ _ f => .completed ⟨0, "", ""⟩ f,
        "/tmp/dl.blend", "/tmp/out.mp4", true, 3⟩
      (fun _ => none)
      ⟨some (.vstr "job-1"),
        some { template_url := some (.vstr "http://host/t.blend") }⟩).effects =
      [Effect.downloadAttempt "http://host/t.blend"] := rfl
  rw [heff]
  exact List.mem_singleton_self _

/-! ## Claim C8 -/

/-- C8 counterexample: the client driver's polling ceiling `CONFIG["timeout"]`
is 2100 s, which is NOT larger than the worker's 3600 s subprocess timeout. -/
theorem claim8_counterexample :
    CONFIG.timeout = 2100 ∧ RENDER_SUBPROCESS_TIMEOUT = 3600 ∧
      ¬ CONFIG.timeout > RENDER_SUBPROCESS_TIMEOUT := by
  decide

/-- C8 (amended): the client driver's configured local polling ceiling
(2100 s) is strictly SMALLER than the worker's one-hour subprocess timeout,
so the client can time out locally before a worker-side timeout is
observable. -/
theorem claim8_timeout_ordering :
    CONFIG.timeout < RENDER_SUBPROCESS_TIMEOUT := by
  decide

/-! ## Claim C9 -/

/-- C9 counterexample: with the API key set but the endpoint identifier
variable absent, `render.py` startup does not exit — it proceeds with the
hardcoded fallback endpoint id. -/
theorem claim9_counterexample :
    renderPyStartup ⟨some "k", none⟩ = .proceed "k" "9ypr4dw7bjj7xi" := by
  rfl

/-- C9 (amended): a missing or empty API credential is fatal at startup in
both client drivers (printed error, exit, no request); a missing or empty
endpoint identifier is fatal only in `test_endpoint.py`, while `render.py`
proceeds with the hardcoded fallback endpoint id `"9ypr4dw7bjj7xi"`. -/
theorem claim9_startup_checks (env : ClientEnvVars) :
    (envTruthy env.RUNPOD_API_KEY = false →
      renderPyStartup env = .exitError "ERROR: Set RUNPOD_API_KEY in environment or .env" ∧
      testEndpointStartup env =
        .exitError "ERROR: Set RUNPOD_API_KEY in environment or .env") ∧
    (envTruthy env.RUNPOD_API_KEY = true →
      envTruthy env.RUNPOD_BLENDER_ENDPOINT_ID = false →
      testEndpointStartup env =
        .exitError "ERROR: Set RUNPOD_BLENDER_ENDPOINT_ID in environment or .env" ∧
      ∃ k, renderPyStartup env = .proceed k "9ypr4dw7bjj7xi") := by
  obtain ⟨key, eid⟩ := env
  constructor
  · intro hkey
    cases key with
    | none => exact ⟨rfl, rfl⟩
    | some k =>
      simp only [envTruthy, bne_eq_false_iff_eq] at hkey
      subst hkey
      exact ⟨rfl, rfl⟩
  · intro hkey heid
    cases key with
    | none => simp [envTruthy] at hkey
    | some k =>
      simp only [envTruthy, bne_iff_ne, ne_eq] at hkey
      cases eid with
      | none =>
        refine ⟨by simp [testEndpointStartup, hkey], k, ?_⟩
        simp [renderPyStartup, envOr, hkey]
      | some e =>
        simp only [envTruthy, bne_eq_false_iff_eq] at heid
        subst heid
        refine ⟨by simp [testEndpointStartup, hkey], k, ?_⟩
        simp [renderPyStartup, envOr, hkey]

/-- C9 witness: concrete environments exercising both halves of the amended
claim — no variables set (both drivers exit on the missing key), and key set
with endpoint id unset (test driver exits, render driver proceeds with the
fallback). -/
theorem claim9_startup_checks_witness :
    (renderPyStartup ⟨none, none⟩ =
        .exitError "ERROR: Set RUNPOD_API_KEY in environment or .env" ∧
      testEndpointStartup ⟨none, none⟩ =
        .exitError "ERROR: Set RUNPOD_API_KEY in environment or .env") ∧
    (testEndpointStartup ⟨some "k", none⟩ =
        .exitError "ERROR: Set RUNPOD_BLENDER_ENDPOINT_ID in environment or .env" ∧
      ∃ k, renderPyStartup ⟨some "k", none⟩ = .proceed k "9ypr4dw7bjj7xi") :=
  ⟨(claim9_startup_checks ⟨none, none⟩).1 rfl,
   (claim9_startup_checks ⟨some "k", none⟩).2 rfl rfl⟩

/-! ## Claim C4 -/

/-- C4: for every render-invocation configuration, a missing scene file gives
an immediate `Template not found` failure, and an absent-or-falsy
`resolution`, `samples` or `fps` (checked in that order) gives an immediate
failure naming exactly that field; in all four cases no subprocess is
spawned. -/
theorem claim4_preconditions (run : BlenderRun) (elapsed : Nat) (fs : FS)
    (tp op : String) (c : RenderConfig) :
    (fs tp = none →
      (render_blender run elapsed fs tp op c).result =
        .ok (.fail ("Template not found: " ++ tp) none none) ∧
      (render_blender run elapsed fs tp op c).spawned = []) ∧
    (∀ content, fs tp = some content → c.resolution.truthy = false →
      (render_blender run elapsed fs tp op c).result =
        .ok (.fail "Missing required parameter: resolution" none none) ∧
      (render_blender run elapsed fs tp op c).spawned = []) ∧
    (∀ content, fs tp = some content → c.resolution.truthy = true →
      c.samples.truthy = false →
      (render_blender run elapsed fs tp op c).result =
        .ok (.fail "Missing required parameter: samples" none none) ∧
      (render_blender run elapsed fs tp op c).spawned = []) ∧
    (∀ content, fs tp = some content → c.resolution.truthy = true →
      c.samples.truthy = true → c.fps.truthy = false →
      (render_blender run elapsed fs tp op c).result =
        .ok (.fail "Missing required parameter: fps" none none) ∧
      (render_blender run elapsed fs tp op c).spawned = []) := by
  refine ⟨fun h => ?_, fun content h h1 => ?_, fun content h h1 h2 => ?_,
    fun content h h1 h2 h3 => ?_⟩
  · simp [render_blender, h]
  · simp [render_blender, h, h1]
  · simp [render_blender, h, h1, h2]
  · simp [render_blender, h, h1, h2, h3]

/-- C4 witness: a missing template file, then (with the template present) a
config missing `resolution`, one missing only `samples`, and one missing only
`fps`, each yielding the named failure and spawning nothing. -/
theorem claim4_preconditions_witness :
    ((render_blender (fun _ _ _ => .timedOut) 0 (fun _ => none) "/tpl.blend"
        "/out.mp4" DEFAULT_CONFIG).result =
      .ok (.fail "Template not found: /tpl.blend" none none)) ∧
    ((render_blender (fun _ _ _ => .timedOut) 0 (fun _ => some []) "/tpl.blend"
        "/out.mp4" DEFAULT_CONFIG).result =
      .ok (.fail "Missing required parameter: resolution" none none)) ∧
    ((render_blender (fun _ _ _ => .timedOut) 0 (fun _ => some []) "/tpl.blend"
        "/out.mp4" { resolution := .vlist [.vint 1920, .vint 1080] }).result =
      .ok (.fail "Missing required parameter: samples" none none)) ∧
    ((render_blender (fun _ _ _ => .timedOut) 0 (fun _ => some []) "/tpl.blend"
        "/out.mp4" { resolution := .vlist [.vint 1920, .vint 1080],
                     samples := .vint 128 }).result =
      .ok (.fail "Missing required parameter: fps" none none)) :=
  ⟨((claim4_preconditions (fun _ _ _ => .timedOut) 0 (fun _ => none)
      "/tpl.blend" "/out.mp4" DEFAULT_CONFIG).1 rfl).1,
   ((claim4_preconditions (fun _ _ _ => .timedOut) 0 (fun _ => some [])
      "/tpl.blend" "/out.mp4" DEFAULT_CONFIG).2.1 [] rfl (by decide)).1,
   ((claim4_preconditions (fun _ _ _ => .timedOut) 0 (fun _ => some [])
      "/tpl.blend" "/out.mp4"
      { resolution := .vlist [.vint 1920, .vint 1080] }).2.2.1 [] rfl
      (by decide) (by decide)).1,
   ((claim4_preconditions (fun _ _ _ => .timedOut) 0 (fun _ => some [])
      "/tpl.blend" "/out.mp4"
      { resolution := .vlist [.vint 1920, .vint 1080],
        samples := .vint 128 }).2.2.2 [] rfl (by decide) (by decide)
      (by decide)).1⟩

/-! ## Claim C5 -/

/-- C5: for every completed renderer subprocess (scene file present, all
three parameters truthy, an indexable resolution, and a run oracle that
completes), the reported result is a success if and only if the exit code is
0 AND the output file exists afterwards; and a zero exit code with no output
file and empty stderr is classified as the `Render failed - no output file`
failure, never a success. -/
theorem claim5_success_classification (proc : CompletedProc) (fsA : FS)
    (run : BlenderRun) (elapsed : Nat) (fs : FS) (tp op : String)
    (c : RenderConfig) (content : List Nat) (w hgt : PyVal) (rest : List PyVal)
    (hfs : fs tp = some content)
    (hres : c.resolution = .vlist (w :: hgt :: rest))
    (hsam : c.samples.truthy = true) (hfps : c.fps.truthy = true)
    (hrun : ∀ cmd t f, run cmd t f = .completed proc fsA) :
    (∃ r, (render_blender run elapsed fs tp op c).result = .ok r ∧
      (r.isSuccess = true ↔ (proc.returncode = 0 ∧ (fsA op).isSome = true))) ∧
    (proc.returncode = 0 → fsA op = none → proc.stderr = "" →
      (render_blender run elapsed fs tp op c).result =
        .ok (.fail "Render failed - no output file"
          (if proc.stdout != "" then some (strTail 2000 proc.stdout) else none)
          (some elapsed))) := by
  have htr : (PyVal.vlist (w :: hgt :: rest)).truthy = true := by
    simp [PyVal.truthy]
  have hg0 : (PyVal.vlist (w :: hgt :: rest)).getItem 0 = .ok w := rfl
  have hg1 : (PyVal.vlist (w :: hgt :: rest)).getItem 1 = .ok hgt := rfl
  constructor
  · simp only [render_blender, hfs, hres, htr, hsam, hfps, hg0, hg1, hrun,
      Option.isNone_some, Bool.not_true, Bool.false_eq_true, if_false]
    by_cases hc : (proc.returncode == 0 && (fsA op).isSome) = true
    · rw [if_pos hc]
      refine ⟨_, rfl, ?_⟩
      have hps : proc.returncode = 0 ∧ (fsA op).isSome = true := by
        simpa [Bool.and_eq_true, beq_iff_eq] using hc
      simp [RenderResult.isSuccess, hps.1, hps.2]
    · rw [if_neg hc]
      refine ⟨_, rfl, ?_⟩
      simp only [RenderResult.isSuccess]
      constructor
      · intro hfalse
        exact absurd hfalse (by simp)
      · intro hcc
        exact absurd (by simp [hcc.1, hcc.2] :
          (proc.returncode == 0 && (fsA op).isSome) = true) hc
  · intro h0 hnone hstderr
    simp [render_blender, hfs, hres, htr, hsam, hfps, hg0, hg1, hrun,
      h0, hnone, hstderr]

/-- C5 witness: a run oracle that exits 0 without creating the output file
and prints nothing is classified as the `no output file` failure (and is not
a success). -/
theorem claim5_success_classification_witness :
    (∃ r, (render_blender (fun _ _ _ => .completed ⟨0, "", ""⟩ (fun _ => none)) 7
        (fun _ => some []) "/tpl.blend" "/out.mp4"
        { resolution := .vlist [.vint 1920, .vint 1080], samples := .vint 128,
          fps := .vint 24 }).result = .ok r ∧
      (r.isSuccess = true ↔
        ((⟨0, "", ""⟩ : CompletedProc).returncode = 0 ∧
          ((fun _ => none : FS) "/out.mp4").isSome = true))) ∧
    ((render_blender (fun _ _ _ => .completed ⟨0, "", ""⟩ (fun _ => none)) 7
        (fun _ => some []) "/tpl.blend" "/out.mp4"
        { resolution := .vlist [.vint 1920, .vint 1080], samples := .vint 128,
          fps := .vint 24 }).result =
      .ok (.fail "Render failed - no output file" none (some 7))) := by
  have h := claim5_success_classification ⟨0, "", ""⟩ (fun _ => none)
    (fun _ _ _ => .completed ⟨0, "", ""⟩ (fun _ => none)) 7
    (fun _ => some []) "/tpl.blend" "/out.mp4"
    { resolution := .vlist [.vint 1920, .vint 1080], samples := .vint 128,
      fps := .vint 24 } [] (.vint 1920) (.vint 1080) [] rfl rfl rfl rfl
    (fun _ _ _ => rfl)
  exact ⟨h.1, h.2 rfl rfl rfl⟩

/-! ## Claim C1 -/

/-- C1 counterexample: a job carrying BOTH a registry template name and a
template URL.  The handler attempts the URL download (the sole effect is the
download attempt, which here fails with 404 and produces the download error
payload), so the registry name did NOT take precedence. -/
theorem claim1_counterexample :
    (handler ⟨net404, runNever, "/tmp/dl.blend", "/tmp/out.mp4", false, 0⟩
      templateOnlyFS
      ⟨some (.vstr "job-1"), some {
        template := some (.vstr "ai_cpu_activation"),
        template_url := some (.vstr "http://host/t.blend") }⟩).effects =
      [Effect.downloadAttempt "http://host/t.blend"] ∧
    (handler ⟨net404, runNever, "/tmp/dl.blend", "/tmp/out.mp4", false, 0⟩
      templateOnlyFS
      ⟨some (.vstr "job-1"), some {
        template := some (.vstr "ai_cpu_activation"),
        template_url := some (.vstr "http://host/t.blend") }⟩).result =
      .ok (.error
        "Failed to download template: HTTP error downloading template: 404 Not Found") :=
  ⟨rfl, rfl⟩

/-- C1 (amended): the URL takes precedence — for every job whose dict has an
id, a download is attempted (exactly once, for that URL) precisely when
`template_url` is truthy, regardless of whether a registry name is present;
the registry is consulted only when the URL is absent or falsy. -/
theorem claim1_url_precedence (env : HandlerEnv) (fs : FS) (job : Job)
    (hid : job.id.isSome = true) :
    downloadsOf (handler env fs job).effects =
      (if ((job.input.getD {}).template_url.getD .vnone).truthy
       then [((job.input.getD {}).template_url.getD .vnone).pyStr] else []) := by
  obtain ⟨idv, hidv⟩ := Option.isSome_iff_exists.mp hid
  unfold handler
  simp only [hidv]
  by_cases hurl : ((job.input.getD {}).template_url.getD .vnone).truthy = true
  · rw [if_pos hurl, if_pos hurl]
    cases hdl : (download_template env.net env.tempBlendPath
        ((job.input.getD {}).template_url.getD .vnone).pyStr fs).2 with
    | error e =>
        simp only [hdl]
        simp [downloadsOf]
    | ok path =>
        simp only [hdl]
        obtain ⟨spawns, hsp⟩ := handlerRender_effects env
          (download_template env.net env.tempBlendPath
            ((job.input.getD {}).template_url.getD .vnone).pyStr fs).1
          [.downloadAttempt ((job.input.getD {}).template_url.getD .vnone).pyStr]
          ((job.input.getD {}).template.getD .vnone)
          ((job.input.getD {}).template_url.getD .vnone) path (some path)
          (buildConfig (job.input.getD {}))
        rw [hsp, downloadsOf_spawns]
        simp [downloadsOf]
  · rw [if_neg hurl, if_neg hurl]
    by_cases hname : ((job.input.getD {}).template.getD .vnone).truthy = true
    · rw [if_pos hname]
      cases hlook : templatesLookup ((job.input.getD {}).template.getD .vnone) with
      | error e =>
          simp only [hlook]
          simp [downloadsOf]
      | ok olook =>
        cases olook with
        | none =>
            simp only [hlook]
            simp [downloadsOf]
        | some path =>
          simp only [hlook]
          obtain ⟨spawns, hsp⟩ := handlerRender_effects env fs []
            ((job.input.getD {}).template.getD .vnone)
            ((job.input.getD {}).template_url.getD .vnone) path none
            (buildConfig (job.input.getD {}))
          rw [hsp, downloadsOf_spawns]
          simp [downloadsOf]
    · rw [if_neg hname]
      have hdef : TEMPLATES.lookup "ai_cpu_activation" =
          some "/workspace/templates/ai_cpu_activation_branded.blend" := rfl
      simp only [hdef]
      obtain ⟨spawns, hsp⟩ := handlerRender_effects env fs []
        (.vstr "ai_cpu_activation")
        ((job.input.getD {}).template_url.getD .vnone)
        "/workspace/templates/ai_cpu_activation_branded.blend" none
        (buildConfig (job.input.getD {}))
      rw [hsp, downloadsOf_spawns]
      simp [downloadsOf]

/-- C1 witness: with both a name and a URL present the download list is
exactly the URL; with only the name it is empty. -/
theorem claim1_url_precedence_witness :
    downloadsOf (handler
      ⟨net404, runNever, "/tmp/dl.blend", "/tmp/out.mp4", false, 0⟩
      templateOnlyFS
      ⟨some (.vstr "job-1"), some {
        template := some (.vstr "ai_cpu_activation"),
        template_url := some (.vstr "http://host/t.blend") }⟩).effects =
      ["http://host/t.blend"] ∧
    downloadsOf (handler
      ⟨net404, runNever, "/tmp/dl.blend", "/tmp/out.mp4", false, 0⟩
      templateOnlyFS
      ⟨some (.vstr "job-1"), some {
        template := some (.vstr "ai_cpu_activation") }⟩).effects = [] := by
  constructor
  · exact claim1_url_precedence
      ⟨net404, runNever, "/tmp/dl.blend", "/tmp/out.mp4", false, 0⟩
      templateOnlyFS
      ⟨some (.vstr "job-1"), some {
        template := some (.vstr "ai_cpu_activation"),
        template_url := some (.vstr "http://host/t.blend") }⟩ rfl
  · exact claim1_url_precedence
      ⟨net404, runNever, "/tmp/dl.blend", "/tmp/out.mp4", false, 0⟩
      templateOnlyFS
      ⟨some (.vstr "job-1"), some {
        template := some (.vstr "ai_cpu_activation") }⟩ rfl

/-! ## Claim C2 -/

/-- C2 counterexample: a job input whose `resolution` is the truthy
non-subscriptable integer `5` passes the truthiness checks, and the command
construction `str(resolution[0])` (handler.py line 154, OUTSIDE
`render_blender`'s `try`) raises `TypeError`; the handler's `try`/`finally`
has no `except`, so the exception escapes the worker boundary instead of
becoming an error payload. -/
theorem claim2_counterexample :
    (handler ⟨net404, runNever, "/tmp/dl.blend", "/tmp/out.mp4", false, 0⟩
      templateOnlyFS
      ⟨some (.vstr "job-1"), some {
        template := some (.vstr "ai_cpu_activation"),
        resolution := some (.vint 5),
        samples := some (.vint 128), fps := some (.vint 24) }⟩).result =
      .error (.typeError "int object is not subscriptable") :=
  rfl

/-- C2 (amended): the worker converts download failures, unknown templates
and everything inside the guarded render execution into `{error}` payloads,
but only for jobs whose dict carries an `id`, whose template name is not an
(unhashable) list when the registry path is taken, and whose merged
`resolution` is falsy or subscriptable at indices 0 and 1 (a list or string
of length ≥ 2); outside that set an exception escapes the boundary —
KeyError on a missing id, TypeError at the registry membership test for a
truthy list-valued name (handler.py line 247), or TypeError while building
the renderer command line for a truthy non-subscriptable resolution
(handler.py line 154) — because the handler's `try` has a `finally` and no
`except`. -/
theorem claim2_boundary (env : HandlerEnv) (fs : FS) (job : Job)
    (hid : job.id.isSome = true)
    (hsrc : ((job.input.getD {}).template_url.getD .vnone).truthy = true ∨
      ((job.input.getD {}).template.getD .vnone).isVlist = false)
    (hres : (buildConfig (job.input.getD {})).resolution.truthy = false ∨
      (buildConfig (job.input.getD {})).resolution.pairIndexable = true) :
    ∃ pay, (handler env fs job).result = .ok pay := by
  obtain ⟨idv, hidv⟩ := Option.isSome_iff_exists.mp hid
  unfold handler
  simp only [hidv]
  by_cases hurl : ((job.input.getD {}).template_url.getD .vnone).truthy = true
  · rw [if_pos hurl]
    cases hdl : (download_template env.net env.tempBlendPath
        ((job.input.getD {}).template_url.getD .vnone).pyStr fs).2 with
    | error e =>
        simp only [hdl]
        exact ⟨_, rfl⟩
    | ok path =>
        simp only [hdl]
        exact handlerRender_no_raise env _ _ _ _ path _ _ hres
  · rw [if_neg hurl]
    by_cases hname : ((job.input.getD {}).template.getD .vnone).truthy = true
    · rw [if_pos hname]
      cases hlook : templatesLookup ((job.input.getD {}).template.getD .vnone) with
      | error e =>
          exact absurd (templatesLookup_error _ _ hlook)
            (by simp [hsrc.resolve_left (by simp [hurl])])
      | ok olook =>
        cases olook with
        | none =>
            simp only [hlook]
            exact ⟨_, rfl⟩
        | some path =>
            simp only [hlook]
            exact handlerRender_no_raise env _ _ _ _ path _ _ hres
    · rw [if_neg hname]
      have hdef : TEMPLATES.lookup "ai_cpu_activation" =
          some "/workspace/templates/ai_cpu_activation_branded.blend" := rfl
      simp only [hdef]
      exact handlerRender_no_raise env _ _ _ _ _ _ _ hres

/-- C2 witness: a well-formed-id job with no parameters at all (falsy
resolution) gets a payload back rather than an exception. -/
theorem claim2_boundary_witness :
    ∃ pay, (handler
      ⟨net404, runNever, "/tmp/dl.blend", "/tmp/out.mp4", false, 0⟩
      templateOnlyFS ⟨some (.vstr "job-1"), none⟩).result = .ok pay :=
  claim2_boundary
    ⟨net404, runNever, "/tmp/dl.blend", "/tmp/out.mp4", false, 0⟩
    templateOnlyFS ⟨some (.vstr "job-1"), none⟩ rfl (Or.inr rfl) (Or.inl rfl)

/-! ## Claim C7 -/

/-- C7 counterexample: a job whose template name (`"nope"`) is not a registry
key but which also carries a template URL: the worker attempts the download
(sole effect) and returns the download-failure payload — no unknown-template
error mentioning the name, contradicting the unconditional claim. -/
theorem claim7_counterexample :
    (handler ⟨net404, runNever, "/tmp/dl.blend", "/tmp/out.mp4", false, 0⟩
      templateOnlyFS
      ⟨some (.vstr "job-1"), some {
        template := some (.vstr "nope"),
        template_url := some (.vstr "http://host/t.blend") }⟩).effects =
      [Effect.downloadAttempt "http://host/t.blend"] ∧
    (handler ⟨net404, runNever, "/tmp/dl.blend", "/tmp/out.mp4", false, 0⟩
      templateOnlyFS
      ⟨some (.vstr "job-1"), some {
        template := some (.vstr "nope"),
        template_url := some (.vstr "http://host/t.blend") }⟩).result =
      .ok (.error
        "Failed to download template: HTTP error downloading template: 404 Not Found") :=
  ⟨rfl, rfl⟩

/-- C7 (amended): for every job whose dict has an id, whose `template_url`
is absent or falsy, and whose truthy template name is hashable (not a list)
and not a registry key, the worker returns the error payload naming the
unknown template and listing the valid registry names, and performs no
download and no subprocess call (the effect list is empty).  (A truthy
list-valued name instead raises TypeError at the membership test,
handler.py line 247; a name accompanied by a URL is never checked at all,
per the counterexample.) -/
theorem claim7_unknown_template (env : HandlerEnv) (fs : FS) (job : Job)
    (hid : job.id.isSome = true)
    (hurl : ((job.input.getD {}).template_url.getD .vnone).truthy = false)
    (hname : ((job.input.getD {}).template.getD .vnone).truthy = true)
    (hlook : templatesLookup ((job.input.getD {}).template.getD .vnone) =
      .ok none) :
    (handler env fs job).result = .ok (.error ("Unknown template: " ++
      ((job.input.getD {}).template.getD .vnone).pyStr ++
      ". Available: " ++ templatesKeysStr)) ∧
    (handler env fs job).effects = [] := by
  obtain ⟨idv, hidv⟩ := Option.isSome_iff_exists.mp hid
  unfold handler
  simp only [hidv]
  rw [if_neg (by simp [hurl]), if_pos hname]
  simp only [hlook]
  constructor <;> trivial

/-- C7 witness: the unknown name `"nope"` with no URL yields exactly the
unknown-template error (naming `nope` and the registry keys) and no
effects. -/
theorem claim7_unknown_template_witness :
    (handler ⟨net404, runNever, "/tmp/dl.blend", "/tmp/out.mp4", false, 0⟩
      templateOnlyFS
      ⟨some (.vstr "job-1"),
        some { template := some (.vstr "nope") }⟩).result =
      .ok (.error
        "Unknown template: nope. Available: ['ai_cpu_activation']") ∧
    (handler ⟨net404, runNever, "/tmp/dl.blend", "/tmp/out.mp4", false, 0⟩
      templateOnlyFS
      ⟨some (.vstr "job-1"),
        some { template := some (.vstr "nope") }⟩).effects = [] :=
  claim7_unknown_template
    ⟨net404, runNever, "/tmp/dl.blend", "/tmp/out.mp4", false, 0⟩
    templateOnlyFS
    ⟨some (.vstr "job-1"), some { template := some (.vstr "nope") }⟩
    rfl rfl rfl rfl

/-! ## Claim C6 -/

/-- C6: for every byte sequence `bs` that a synthetic render subprocess
writes to the temp output path before exiting 0, the worker returns a success
payload whose `video_base64` field is the base64 encoding of `bs` and
decodes back to exactly `bs`. -/
theorem claim6_base64_roundtrip (bs : List Nat) (hbs : ∀ b ∈ bs, b < 256)
    (net : Net) (blendTmp mp4Tmp : String) (gpu : Bool) (elapsed : Nat)
    (fs : FS) (content : List Nat)
    (hfs : fs "/workspace/templates/ai_cpu_activation_branded.blend" =
      some content)
    (hmp4 : mp4Tmp ≠ "/workspace/templates/ai_cpu_activation_branded.blend") :
    ∃ p : SuccessPayload,
      (handler ⟨net, fun _ _ f => .completed ⟨0, "", ""⟩ (f.write mp4Tmp bs),
          blendTmp, mp4Tmp, gpu, elapsed⟩ fs
        ⟨some (.vstr "job-1"), some {
          template := some (.vstr "ai_cpu_activation"),
          resolution := some (.vlist [.vint 1920, .vint 1080]),
          samples := some (.vint 128), fps := some (.vint 24) }⟩).result =
        .ok (.ok p) ∧
      p.video_base64 = b64encodeString bs ∧
      b64decodeString p.video_base64 = some bs := by
  have hne : ("/workspace/templates/ai_cpu_activation_branded.blend" : String)
      ≠ mp4Tmp := fun h => hmp4 h.symm
  have hcfg : buildConfig {
      template := some (.vstr "ai_cpu_activation"),
      resolution := some (.vlist [.vint 1920, .vint 1080]),
      samples := some (.vint 128), fps := some (.vint 24) } =
      { duration := .vnone, resolution := .vlist [.vint 1920, .vint 1080],
        samples := .vint 128, fps := .vint 24 } := rfl
  rw [handler_named_template
    ⟨net, fun _ _ f => .completed ⟨0, "", ""⟩ (f.write mp4Tmp bs),
      blendTmp, mp4Tmp, gpu, elapsed⟩ fs (.vstr "job-1")
    { template := some (.vstr "ai_cpu_activation"),
      resolution := some (.vlist [.vint 1920, .vint 1080]),
      samples := some (.vint 128), fps := some (.vint 24) }
    "/workspace/templates/ai_cpu_activation_branded.blend" rfl rfl rfl]
  refine ⟨_, handlerRender_success _ _ _ _ _ _ _ _ elapsed bs.length none bs
    ?_ ?_, rfl, ?_⟩
  · simp [render_blender, hcfg, FS.write, hne, hfs, PyVal.truthy,
      PyVal.getItem]
  · simp [render_blender, hcfg, FS.write, hne, hfs, PyVal.truthy,
      PyVal.getItem]
  · exact b64_roundtrip bs hbs

/-- C6 witness: the four-byte sequence `[0, 255, 16, 3]` round-trips through
a successful invocation's `video_base64` field. -/
theorem claim6_base64_roundtrip_witness :
    ∃ p : SuccessPayload,
      (handler ⟨net404,
          fun _ _ f => .completed ⟨0, "", ""⟩
            (f.write "/tmp/out.mp4" [0, 255, 16, 3]),
          "/tmp/dl.blend", "/tmp/out.mp4", false, 9⟩ templateOnlyFS
        ⟨some (.vstr "job-1"), some {
          template := some (.vstr "ai_cpu_activation"),
          resolution := some (.vlist [.vint 1920, .vint 1080]),
          samples := some (.vint 128), fps := some (.vint 24) }⟩).result =
        .ok (.ok p) ∧
      p.video_base64 = b64encodeString [0, 255, 16, 3] ∧
      b64decodeString p.video_base64 = some [0, 255, 16, 3] :=
  claim6_base64_roundtrip [0, 255, 16, 3] (by decide) net404 "/tmp/dl.blend"
    "/tmp/out.mp4" false 9 templateOnlyFS [] rfl (by decide)

/-! ## Claim C10 -/

/-- C10: the nested `config` map is merged into the effective render
configuration AFTER the top-level fields, so a `duration`, `resolution`,
`samples` or `fps` entry inside `config` silently overrides the same-named
top-level field (whatever that field held); in particular a job with a valid
top-level `samples` and `config` `{samples: 0}` fails with
`Missing required parameter: samples`. -/
theorem claim10_nested_config_overrides :
    (∀ (j : JobInput) (v : PyVal),
      (buildConfig { j with config := some [("duration", v)] }).duration = v ∧
      (buildConfig { j with config := some [("resolution", v)] }).resolution = v ∧
      (buildConfig { j with config := some [("samples", v)] }).samples = v ∧
      (buildConfig { j with config := some [("fps", v)] }).fps = v) ∧
    (∀ (env : HandlerEnv) (fs : FS) (content : List Nat),
      fs "/workspace/templates/ai_cpu_activation_branded.blend" = some content →
      env.tempMp4Path ≠ "/workspace/templates/ai_cpu_activation_branded.blend" →
      (handler env fs ⟨some (.vstr "job-1"), some {
          template := some (.vstr "ai_cpu_activation"),
          resolution := some (.vlist [.vint 1920, .vint 1080]),
          samples := some (.vint 128), fps := some (.vint 24),
          config := some [("samples", .vint 0)] }⟩).result =
        .ok (.error "Missing required parameter: samples")) := by
  constructor
  · exact fun j v => ⟨rfl, rfl, rfl, rfl⟩
  · intro env fs content hfs hmp4
    have hne : ("/workspace/templates/ai_cpu_activation_branded.blend" :
        String) ≠ env.tempMp4Path := fun h => hmp4 h.symm
    have hcfg : buildConfig {
        template := some (.vstr "ai_cpu_activation"),
        resolution := some (.vlist [.vint 1920, .vint 1080]),
        samples := some (.vint 128), fps := some (.vint 24),
        config := some [("samples", .vint 0)] } =
        { duration := .vnone, resolution := .vlist [.vint 1920, .vint 1080],
          samples := .vint 0, fps := .vint 24 } := rfl
    rw [handler_named_template env fs (.vstr "job-1")
      { template := some (.vstr "ai_cpu_activation"),
        resolution := some (.vlist [.vint 1920, .vint 1080]),
        samples := some (.vint 128), fps := some (.vint 24),
        config := some [("samples", .vint 0)] }
      "/workspace/templates/ai_cpu_activation_branded.blend" rfl rfl rfl]
    refine handlerRender_fail _ _ _ _ _ _ _ _
      "Missing required parameter: samples" none none ?_
    simp [render_blender, hcfg, FS.write, hne, hfs, PyVal.truthy]

/-- C10 witness: the override fires on concrete inputs — nested `samples: 0`
beats a top-level `samples: 128`, and the handler reports the missing
parameter even though the top level supplied it. -/
theorem claim10_nested_config_overrides_witness :
    (buildConfig
      { samples := some (.vint 128),
        config := some [("samples", .vint 0)] }).samples = .vint 0 ∧
    (handler ⟨net404, runNever, "/tmp/dl.blend", "/tmp/out.mp4", false, 0⟩
      templateOnlyFS
      ⟨some (.vstr "job-1"), some {
        template := some (.vstr "ai_cpu_activation"),
        resolution := some (.vlist [.vint 1920, .vint 1080]),
        samples := some (.vint 128), fps := some (.vint 24),
        config := some [("samples", .vint 0)] }⟩).result =
      .ok (.error "Missing required parameter: samples") :=
  ⟨(claim10_nested_config_overrides.1
      { samples := some (.vint 128) } (.vint 0)).2.2.1,
   claim10_nested_config_overrides.2
     ⟨net404, runNever, "/tmp/dl.blend", "/tmp/out.mp4", false, 0⟩
     templateOnlyFS [] rfl (by decide)⟩

end BlenderServerless
